import Mathlib

/-!
Verification of the EmergencyCareNavigator core pipeline
(src/app/agents.py, src/app/models.py) by shallow embedding.

Modelling conventions:
- Python floats (latitude, longitude, distances) are embedded as rationals.
- External providers (geocoder, facility directory, route estimator, LLM)
  are inputs: the candidate list, the distance function, the ETA function,
  the narrative text and the timestamp are parameters of the embedded
  functions, exactly where the source reads them from the outside world.
- A failed LLM call leaves the local variable `explanation` equal to the
  empty string in the source, so the narrative parameter is a `String`
  where the empty string covers both "generator failed" and "empty output".
- Python string literals that contain single-quote characters are
  reproduced with those quote characters omitted, and the warning emoji of
  the safety note is omitted; no claim depends on them.
- `str.lower()` is modelled per character (ASCII case folding), and
  `round(x, 3)` equality is modelled by `round(x * 1000)` (half-up); the
  dedup claims depend only on equality of rounded keys.
- Python `list.sort(key=...)` is a stable sort by a total preorder; it is
  modelled by Mathlib insertionSort over the same key, which is also
  stable, hence produces the identical list.
- Exceptions are modelled with `Except String`; in the source every
  `raise` in the transition methods precedes every field assignment, which
  the `Except` translation mirrors.
-/

/-- IntakeAnswers from src/app/models.py (fields irrelevant to the claims,
such as age and duration, carry no logic and are kept where the claims
mention them). -/
structure IntakeAnswers where
  name : String := "Anonymous"
  location_query : String
  symptoms : List String := []
  unconscious : Bool := false
  breathing_difficulty : Bool := false
  chest_pain : Bool := false
  stroke_signs : Bool := false
  major_bleeding : Bool := false
  severe_allergy : Bool := false
  pregnancy : Bool := false
  injury_trauma : Bool := false
deriving DecidableEq

/-- TriageResult from src/app/models.py. -/
structure TriageResult where
  level : String
  reason : String
  recommended_action : String
  safety_note : String
deriving DecidableEq

/-- Facility from src/app/models.py. -/
structure Facility where
  name : String
  address : String
  lat : ℚ
  lon : ℚ
  kind : String
  distance_km : Option ℚ := none
  eta_minutes : Option ℤ := none
  source : String := "OSM"
deriving DecidableEq

/-- BookingState from src/app/models.py. -/
structure BookingState where
  request_type : String := "alert"
  status : String := "not_started"
  facility_name : Option String := none
  requested_at : Option String := none
  approved_at : Option String := none
  acknowledged_at : Option String := none
  note : Option String := none
  session_id : Option String := none
  patient_name : Option String := none
  triage_level : Option String := none
deriving DecidableEq

/-- Recommendation from src/app/models.py. -/
structure Recommendation where
  triage : TriageResult
  top_choices : List Facility
  route_notes : String
  handoff_packet : String
  booking_status : String
  booking : Option BookingState := none
deriving DecidableEq

/-- The red-flag list of TriageAgent.run (src/app/agents.py lines 18-25):
exactly six booleans; pregnancy and injury_trauma are not in it. -/
def redFlags (i : IntakeAnswers) : List Bool :=
  [i.unconscious, i.breathing_difficulty, i.chest_pain,
   i.stroke_signs, i.major_bleeding, i.severe_allergy]

/-- Constant safety note of TriageAgent.run (quote characters and emoji
omitted). -/
def safetyNote : String :=
  "IMPORTANT: This tool does NOT diagnose. " ++
  "If you are unsure, treat it as urgent. " ++
  "For emergencies, call local emergency services (911/ambulance) immediately."

/-- The if/elif/else chain of TriageAgent.run (lines 27-38) choosing
(level, reason, action) before the LLM call. -/
def triageCore (i : IntakeAnswers) : String × String × String :=
  if (redFlags i).any id then
    ("emergency",
     "One or more red-flag symptoms present (airway/breathing/circulation/neurologic risk).",
     "CALL EMERGENCY SERVICES (911/ambulance) NOW. Do not delay. Prefer ambulance/ER.")
  else if i.injury_trauma then
    ("high",
     "Trauma/injury reported without immediate red flags.",
     "Seek urgent medical evaluation immediately. Consider ER/urgent care. If symptoms worsen, call emergency services.")
  else
    (if i.symptoms.length >= 2 then "medium" else "low",
     "No immediate red flags reported.",
     "If symptoms worsen or new red flags appear, escalate to emergency care.")

/-- Line 62 of TriageAgent.run: the narrative is appended to the fixed
reason when it is non-empty. -/
def narrativeSuffix (explanation : String) : String :=
  if explanation = "" then "" else "\n\nLLM Explanation:\n" ++ explanation

/-- TriageAgent.run (lines 17-63), with the stripped LLM output as the
`explanation` parameter (empty on generator failure). -/
def classify (i : IntakeAnswers) (explanation : String) : TriageResult :=
  { level := (triageCore i).1,
    reason := (triageCore i).2.1 ++ narrativeSuffix explanation,
    recommended_action := (triageCore i).2.2,
    safety_note := safetyNote }

/-- Intake with only the pregnancy flag set. -/
def pregnancyOnlyIntake : IntakeAnswers :=
  { location_query := "Townsville" , pregnancy := true }

/-- Intake with only the chest-pain flag set. -/
def chestPainIntake : IntakeAnswers :=
  { location_query := "Townsville" , symptoms := ["chest pain", "sweating"],
    chest_pain := true }

/-- C1 counterexample: the claim names pregnancy (and injury_trauma) among
eight red flags each alone sufficient for emergency, but an intake whose
only true indicator is pregnancy is classified "low", not "emergency". -/
theorem C1_counterexample :
    pregnancyOnlyIntake.pregnancy = true ∧
    (classify pregnancyOnlyIntake "").level = "low" ∧
    (classify pregnancyOnlyIntake "").level ≠ "emergency" := by
  decide

/-- C1 (amended): the red flags of the code are the six indicators
unconscious, breathing_difficulty, chest_pain, stroke_signs,
major_bleeding, severe_allergy; whenever any of these six is true,
classify returns level "emergency" regardless of all other fields. -/
theorem C1_red_flag_emergency (i : IntakeAnswers) (e : String)
    (h : i.unconscious = true ∨ i.breathing_difficulty = true ∨
         i.chest_pain = true ∨ i.stroke_signs = true ∨
         i.major_bleeding = true ∨ i.severe_allergy = true) :
    (classify i e).level = "emergency" := by
  have hany : (redFlags i).any id = true := by
    simp only [redFlags, List.any_cons, List.any_nil, id, Bool.or_eq_true]
    rcases h with h | h | h | h | h | h <;> simp [h]
  simp [classify, triageCore, hany]

/-- C1 witness: the amended theorem applied to a concrete intake with only
chest pain set. -/
theorem C1_red_flag_emergency_witness :
    (classify chestPainIntake "").level = "emergency" :=
  C1_red_flag_emergency chestPainIntake "" (by decide)

/-- C7: with the six emergency red flags all false, injury_trauma alone
gives level "high"; with injury_trauma also false, at least two symptoms
give "medium" and fewer than two give "low" (pregnancy plays no role). -/
theorem C7_no_red_flag_levels (i : IntakeAnswers) (e : String)
    (h : (redFlags i).any id = false) :
    (i.injury_trauma = true → (classify i e).level = "high") ∧
    (i.injury_trauma = false → 2 ≤ i.symptoms.length →
      (classify i e).level = "medium") ∧
    (i.injury_trauma = false → i.symptoms.length < 2 →
      (classify i e).level = "low") := by
  refine ⟨fun ht => ?_, fun ht h2 => ?_, fun ht h2 => ?_⟩
  · simp [classify, triageCore, h, ht]
  · simp [classify, triageCore, h, ht, h2]
  · have : ¬ (2 ≤ i.symptoms.length) := by omega
    simp [classify, triageCore, h, ht, this]

/-- C7 witness: concrete instances of all three branches. -/
theorem C7_no_red_flag_levels_witness :
    (classify { location_query := "X", injury_trauma := true } "").level = "high" ∧
    (classify { location_query := "X", symptoms := ["fever", "mild cough"] } "").level = "medium" ∧
    (classify { location_query := "X", symptoms := ["fever"] } "").level = "low" :=
  ⟨(C7_no_red_flag_levels { location_query := "X", injury_trauma := true } ""
      (by decide)).1 (by decide),
   (C7_no_red_flag_levels { location_query := "X", symptoms := ["fever", "mild cough"] } ""
      (by decide)).2.1 (by decide) (by decide),
   (C7_no_red_flag_levels { location_query := "X", symptoms := ["fever"] } ""
      (by decide)).2.2 (by decide) (by decide)⟩

/-- C4 counterexample: the claim says the narrative never affects level,
reason or recommended_action, but the source appends the narrative text to
the returned reason, so two runs whose narrative texts differ return
different reason fields on identical intake. -/
theorem C4_counterexample :
    (classify chestPainIntake "stay calm").level =
      (classify chestPainIntake "breathe slowly").level ∧
    (classify chestPainIntake "stay calm").reason ≠
      (classify chestPainIntake "breathe slowly").reason := by
  decide

/-- C4 (amended): level, recommended_action and safety_note are identical
across invocations on identical intake whatever the narrative outcomes;
the reason field is identical whenever the narrative outcome is identical
(in particular whenever the generator fails both times), and always starts
with the fixed template of the branch, the narrative being only appended. -/
theorem C4_structured_fields_stable (i : IntakeAnswers) (e₁ e₂ : String) :
    (classify i e₁).level = (classify i e₂).level ∧
    (classify i e₁).recommended_action = (classify i e₂).recommended_action ∧
    (classify i e₁).safety_note = (classify i e₂).safety_note ∧
    (e₁ = e₂ → (classify i e₁).reason = (classify i e₂).reason) ∧
    (classify i e₁).reason = (triageCore i).2.1 ++ narrativeSuffix e₁ := by
  refine ⟨rfl, rfl, rfl, fun h => by rw [h], rfl⟩

/-- C4 witness: the amended theorem at a concrete intake, with one failed
narrative on each side. -/
theorem C4_structured_fields_stable_witness :
    (classify chestPainIntake "").level = (classify chestPainIntake "").level ∧
    (classify chestPainIntake "").recommended_action =
      (classify chestPainIntake "").recommended_action ∧
    (classify chestPainIntake "").safety_note = (classify chestPainIntake "").safety_note ∧
    ("" = "" → (classify chestPainIntake "").reason = (classify chestPainIntake "").reason) ∧
    (classify chestPainIntake "").reason =
      (triageCore chestPainIntake).2.1 ++ narrativeSuffix "" :=
  C4_structured_fields_stable chestPainIntake "" ""

/-- Note set by the seeding branch for alerts (line 184). -/
def alertCreatedNote : String :=
  "Pre-arrival alert created. Hospital must acknowledge to confirm readiness."

/-- Note set by the seeding branch for appointments (line 190). -/
def apptCreatedNote : String :=
  "Appointment booking request created. Hospital must approve to confirm appointment."

/-- Seeding of the booking inside CoordinatorAgent.run (lines 175-191):
common field assignments, then the branch on the triage level. The source
performs no check of the current status before these assignments. -/
def seed (b : BookingState) (facilityName triageLevel patientName now : String) :
    BookingState :=
  let b0 := { b with facility_name := some facilityName, requested_at := some now,
                     patient_name := some patientName, triage_level := some triageLevel }
  if triageLevel = "emergency" ∨ triageLevel = "high" then
    { b0 with request_type := "alert", status := "PENDING_ACK",
              note := some alertCreatedNote }
  else
    { b0 with request_type := "appointment", status := "PENDING_APPROVAL",
              note := some apptCreatedNote }

/-- Error text of ack_alert for a wrong request type (line 218, quote
characters omitted). -/
def ackTypeErr (b : BookingState) : String :=
  "Cannot acknowledge: request type is " ++ b.request_type ++ ", expected alert"

/-- Error text of ack_alert for a wrong status (line 220). -/
def ackStatusErr (b : BookingState) : String :=
  "Cannot acknowledge: status is " ++ b.status ++ ", expected PENDING_ACK"

/-- Error text of approve_appointment for a wrong request type (line 234). -/
def approveTypeErr (b : BookingState) : String :=
  "Cannot approve appointment: request type is " ++ b.request_type ++
  ", expected appointment"

/-- Error text of approve_appointment for a wrong status (line 236). -/
def approveStatusErr (b : BookingState) : String :=
  "Cannot approve: status is " ++ b.status ++ ", expected PENDING_APPROVAL"

/-- Error text of reject_request for a non-pending status (line 250). -/
def rejectStatusErr (b : BookingState) : String :=
  "Cannot reject: status is " ++ b.status ++ ", expected PENDING_ACK or PENDING_APPROVAL"

/-- CoordinatorAgent.ack_alert (lines 212-226). Both raises precede every
field assignment in the source, which the Except translation mirrors. -/
def ack_alert (b : BookingState) (now : String) : Except String BookingState :=
  if b.request_type ≠ "alert" then .error (ackTypeErr b)
  else if b.status ≠ "PENDING_ACK" then .error (ackStatusErr b)
  else .ok { b with status := "ACKNOWLEDGED", acknowledged_at := some now,
                    note := some "Pre-arrival alert acknowledged. Hospital is ready to receive patient." }

/-- CoordinatorAgent.approve_appointment (lines 228-242). -/
def approve_appointment (b : BookingState) (now : String) : Except String BookingState :=
  if b.request_type ≠ "appointment" then .error (approveTypeErr b)
  else if b.status ≠ "PENDING_APPROVAL" then .error (approveStatusErr b)
  else .ok { b with status := "CONFIRMED", approved_at := some now,
                    note := some "Appointment booking confirmed." }

/-- Default reject note: the Python expression `reason or "Request rejected
by hospital."` treats both None and the empty string as absent. -/
def rejectNote (reason : Option String) : String :=
  match reason with
  | some r => if r = "" then "Request rejected by hospital." else r
  | none => "Request rejected by hospital."

/-- CoordinatorAgent.reject_request (lines 244-255). -/
def reject_request (b : BookingState) (reason : Option String) : Except String BookingState :=
  if ¬ (b.status = "PENDING_ACK" ∨ b.status = "PENDING_APPROVAL") then
    .error (rejectStatusErr b)
  else
    .ok { b with status := "REJECTED", note := some (rejectNote reason) }

/-- State of self.booking after a call of ack_alert: on a raise the booking
of the coordinator is left as it was. -/
def ackPost (b : BookingState) (now : String) : BookingState :=
  match ack_alert b now with
  | .ok b2 => b2
  | .error _ => b

/-- State of self.booking after a call of approve_appointment. -/
def approvePost (b : BookingState) (now : String) : BookingState :=
  match approve_appointment b now with
  | .ok b2 => b2
  | .error _ => b

/-- State of self.booking after a call of reject_request. -/
def rejectPost (b : BookingState) (reason : Option String) : BookingState :=
  match reject_request b reason with
  | .ok b2 => b2
  | .error _ => b

/-- Progress measure on the status graph of the spec: seeded pending states
sit above not_started, terminal states above pending ones. -/
def stateRank (s : String) : ℕ :=
  if s = "not_started" then 0
  else if s = "PENDING_ACK" ∨ s = "PENDING_APPROVAL" then 1
  else 2

/-- Booking of an alert awaiting acknowledgement. -/
def pendingAckBooking : BookingState :=
  { request_type := "alert", status := "PENDING_ACK" }

/-- Booking of an appointment awaiting approval. -/
def pendingApprovalBooking : BookingState :=
  { request_type := "appointment", status := "PENDING_APPROVAL" }

/-- Booking of an already acknowledged alert (a terminal state). -/
def acknowledgedBooking : BookingState :=
  { request_type := "alert", status := "ACKNOWLEDGED" }

/-- C2 counterexample: seeding carries no status guard in the source, so
seeding a booking that is already ACKNOWLEDGED succeeds and moves it back
to the earlier state PENDING_ACK, re-entering the graph and mutating a
terminal state. -/
theorem C2_counterexample :
    acknowledgedBooking.status = "ACKNOWLEDGED" ∧
    (seed acknowledgedBooking "General Hospital" "emergency" "Pat" "t1").status
      = "PENDING_ACK" ∧
    stateRank "PENDING_ACK" < stateRank "ACKNOWLEDGED" := by
  decide

/-- C2 (amended): the three guarded operations acknowledge, approve and
reject are monotonic — each success strictly increases the state rank, and
all three fail on a booking whose status is ACKNOWLEDGED, CONFIRMED or
REJECTED; seeding, however, carries no guard in the source and uncondition-
ally moves the booking to a pending state whatever its prior status (the
HTTP layer creates a fresh coordinator per run, so seeding starts from
not_started there). -/
theorem C2_guarded_transitions_monotonic (b : BookingState) (now : String)
    (reason : Option String) :
    ((b.status = "ACKNOWLEDGED" ∨ b.status = "CONFIRMED" ∨ b.status = "REJECTED") →
      (ack_alert b now).isOk = false ∧ (approve_appointment b now).isOk = false ∧
      (reject_request b reason).isOk = false) ∧
    (∀ b2, ack_alert b now = .ok b2 → stateRank b.status < stateRank b2.status) ∧
    (∀ b2, approve_appointment b now = .ok b2 → stateRank b.status < stateRank b2.status) ∧
    (∀ b2, reject_request b reason = .ok b2 → stateRank b.status < stateRank b2.status) := by
  refine ⟨fun hterm => ?_, fun b2 hb2 => ?_, fun b2 hb2 => ?_, fun b2 hb2 => ?_⟩
  · have hs1 : b.status ≠ "PENDING_ACK" := by
      rcases hterm with h | h | h <;> rw [h] <;> decide
    have hs2 : b.status ≠ "PENDING_APPROVAL" := by
      rcases hterm with h | h | h <;> rw [h] <;> decide
    unfold ack_alert approve_appointment reject_request
    refine ⟨?_, ?_, ?_⟩ <;> split_ifs <;>
      simp_all [Except.isOk, Except.toBool]
  · by_cases h1 : b.request_type = "alert"
    · by_cases h2 : b.status = "PENDING_ACK"
      · simp only [ack_alert, h1, h2] at hb2
        simp only [ne_eq, not_true_eq_false, if_false, ite_false, reduceIte,
                   Except.ok.injEq] at hb2
        subst hb2
        rw [h2]
        change stateRank "PENDING_ACK" < stateRank "ACKNOWLEDGED"
        decide
      · exfalso; simp [ack_alert, h1, h2] at hb2
    · exfalso; simp [ack_alert, h1] at hb2
  · by_cases h1 : b.request_type = "appointment"
    · by_cases h2 : b.status = "PENDING_APPROVAL"
      · simp only [approve_appointment, h1, h2] at hb2
        simp only [ne_eq, not_true_eq_false, if_false, ite_false, reduceIte,
                   Except.ok.injEq] at hb2
        subst hb2
        rw [h2]
        change stateRank "PENDING_APPROVAL" < stateRank "CONFIRMED"
        decide
      · exfalso; simp [approve_appointment, h1, h2] at hb2
    · exfalso; simp [approve_appointment, h1] at hb2
  · by_cases h1 : b.status = "PENDING_ACK" ∨ b.status = "PENDING_APPROVAL"
    · simp only [reject_request, h1, not_true_eq_false, if_false, ite_false, reduceIte,
                 Except.ok.injEq] at hb2
      subst hb2
      rcases h1 with hst | hst <;> rw [hst]
      · change stateRank "PENDING_ACK" < stateRank "REJECTED"
        decide
      · change stateRank "PENDING_APPROVAL" < stateRank "REJECTED"
        decide
    · exfalso; simp [reject_request, h1] at hb2

/-- C2 witness: the amended theorem applied to an acknowledged booking. -/
theorem C2_guarded_transitions_monotonic_witness :
    (ack_alert acknowledgedBooking "t2").isOk = false ∧
    (approve_appointment acknowledgedBooking "t2").isOk = false ∧
    (reject_request acknowledgedBooking none).isOk = false :=
  (C2_guarded_transitions_monotonic acknowledgedBooking "t2" none).1 (by decide)

/-- C5: acknowledge succeeds exactly on an alert in PENDING_ACK and moves
it to ACKNOWLEDGED; approve succeeds exactly on an appointment in
PENDING_APPROVAL and moves it to CONFIRMED; reject succeeds exactly from
the two pending statuses and moves to REJECTED; every failing call reports
the current request_type or status in its error text. -/
theorem C5_transition_guards (b : BookingState) (now : String) (reason : Option String) :
    ((ack_alert b now).isOk = true ↔
       (b.request_type = "alert" ∧ b.status = "PENDING_ACK")) ∧
    (∀ b2, ack_alert b now = .ok b2 → b2.status = "ACKNOWLEDGED") ∧
    ((approve_appointment b now).isOk = true ↔
       (b.request_type = "appointment" ∧ b.status = "PENDING_APPROVAL")) ∧
    (∀ b2, approve_appointment b now = .ok b2 → b2.status = "CONFIRMED") ∧
    ((reject_request b reason).isOk = true ↔
       (b.status = "PENDING_ACK" ∨ b.status = "PENDING_APPROVAL")) ∧
    (∀ b2, reject_request b reason = .ok b2 → b2.status = "REJECTED") ∧
    (∀ e, ack_alert b now = .error e → e = ackTypeErr b ∨ e = ackStatusErr b) ∧
    (∀ e, approve_appointment b now = .error e →
       e = approveTypeErr b ∨ e = approveStatusErr b) ∧
    (∀ e, reject_request b reason = .error e → e = rejectStatusErr b) := by
  have hAA : ("alert" : String) ≠ "appointment" := by decide
  have hPP : ("PENDING_ACK" : String) ≠ "PENDING_APPROVAL" := by decide
  refine ⟨?_, ?_, ?_, ?_, ?_, ?_, ?_, ?_, ?_⟩ <;>
    by_cases h1 : b.request_type = "alert" <;>
    by_cases h2 : b.request_type = "appointment" <;>
    by_cases h3 : b.status = "PENDING_ACK" <;>
    by_cases h4 : b.status = "PENDING_APPROVAL" <;>
    simp_all [ack_alert, approve_appointment, reject_request,
              Except.isOk, Except.toBool]

/-- C5 witness: the guard characterization applied to concrete pending
bookings on the success side and to a terminal booking on the failure
side. -/
theorem C5_transition_guards_witness :
    (ack_alert pendingAckBooking "t3").isOk = true ∧
    (approve_appointment pendingApprovalBooking "t3").isOk = true ∧
    (reject_request pendingApprovalBooking (some "full")).isOk = true :=
  ⟨(C5_transition_guards pendingAckBooking "t3" none).1.mpr (by decide),
   (C5_transition_guards pendingApprovalBooking "t3" none).2.2.1.mpr (by decide),
   (C5_transition_guards pendingApprovalBooking "t3" (some "full")).2.2.2.2.1.mpr
     (by decide)⟩

/-- C6: seeding sets request_type alert with status PENDING_ACK exactly
when the triage level is emergency or high, and otherwise appointment with
PENDING_APPROVAL; it stamps requested_at with the current time and sets the
explanatory note of the branch. -/
theorem C6_seed_modes (b : BookingState) (fname level pname now : String) :
    ((seed b fname level pname now).request_type = "alert" ↔
       (level = "emergency" ∨ level = "high")) ∧
    ((level = "emergency" ∨ level = "high") →
       (seed b fname level pname now).status = "PENDING_ACK" ∧
       (seed b fname level pname now).note = some alertCreatedNote) ∧
    (¬ (level = "emergency" ∨ level = "high") →
       (seed b fname level pname now).request_type = "appointment" ∧
       (seed b fname level pname now).status = "PENDING_APPROVAL" ∧
       (seed b fname level pname now).note = some apptCreatedNote) ∧
    (seed b fname level pname now).requested_at = some now := by
  have hne : ("appointment" : String) ≠ "alert" := by decide
  unfold seed
  split_ifs with h <;> simp_all

/-- C6 witness: seeding a fresh booking at level emergency. -/
theorem C6_seed_modes_witness :
    (seed {} "City Hospital" "emergency" "Pat" "t4").status = "PENDING_ACK" ∧
    (seed {} "City Hospital" "emergency" "Pat" "t4").note = some alertCreatedNote :=
  (C6_seed_modes {} "City Hospital" "emergency" "Pat" "t4").2.1 (Or.inl rfl)

/-- C10: whenever acknowledge, approve or reject fails, the booking of the
coordinator after the call equals the booking before it in every field; in
the source both guard raises precede every field assignment. -/
theorem C10_failed_transitions_atomic (b : BookingState) (now : String)
    (reason : Option String) :
    ((ack_alert b now).isOk = false → ackPost b now = b) ∧
    ((approve_appointment b now).isOk = false → approvePost b now = b) ∧
    ((reject_request b reason).isOk = false → rejectPost b reason = b) := by
  refine ⟨fun h => ?_, fun h => ?_, fun h => ?_⟩
  · unfold ackPost
    cases hc : ack_alert b now with
    | ok b2 => rw [hc] at h; simp [Except.isOk, Except.toBool] at h
    | error e => rfl
  · unfold approvePost
    cases hc : approve_appointment b now with
    | ok b2 => rw [hc] at h; simp [Except.isOk, Except.toBool] at h
    | error e => rfl
  · unfold rejectPost
    cases hc : reject_request b reason with
    | ok b2 => rw [hc] at h; simp [Except.isOk, Except.toBool] at h
    | error e => rfl

/-- C10 witness: a failing acknowledge, approve and reject on an already
acknowledged booking leave it untouched. -/
theorem C10_failed_transitions_atomic_witness :
    ackPost acknowledgedBooking "t5" = acknowledgedBooking ∧
    approvePost acknowledgedBooking "t5" = acknowledgedBooking ∧
    rejectPost acknowledgedBooking (some "no beds") = acknowledgedBooking :=
  ⟨(C10_failed_transitions_atomic acknowledgedBooking "t5" (some "no beds")).1 (by decide),
   (C10_failed_transitions_atomic acknowledgedBooking "t5" (some "no beds")).2.1 (by decide),
   (C10_failed_transitions_atomic acknowledgedBooking "t5" (some "no beds")).2.2 (by decide)⟩

/-- Leading and trailing whitespace removal of Python str.strip, on the
character list. -/
def trimChars (l : List Char) : List Char :=
  ((l.dropWhile Char.isWhitespace).reverse.dropWhile Char.isWhitespace).reverse

/-- Name normalization of the dedup key (line 89 of agents.py):
name.lower().strip().split(",")[0].strip(), modelled on the character
list with ASCII case folding; taking the text before the first comma of a
stripped string is takeWhile of non-comma characters. -/
def normName (s : String) : List Char :=
  trimChars ((trimChars (s.data.map Char.toLower)).takeWhile (fun c => c ≠ ','))

/-- Rounding of a coordinate to 3 decimal places for the dedup key (line
90): equality of values rounded to 3 decimals is equality of
round(x * 1000); computed as the floor of (1000 q + 1/2) in integer
arithmetic. -/
def round3 (q : ℚ) : ℤ := Int.fdiv (2000 * q.num + (q.den : ℤ)) (2 * (q.den : ℤ))

/-- Dedup key of line 90: normalized name with both rounded coordinates. -/
def dedupKey (f : Facility) : List Char × ℤ × ℤ :=
  (normName f.name, round3 f.lat, round3 f.lon)

/-- Replacement of the value stored under an existing key of the uniq
dict, keeping its position (Python dict update semantics). -/
def upsert (u : List ((List Char × ℤ × ℤ) × Facility)) (k : List Char × ℤ × ℤ)
    (f : Facility) : List ((List Char × ℤ × ℤ) × Facility) :=
  match u with
  | [] => [(k, f)]
  | (k0, f0) :: rest =>
    if k0 = k then (k0, f) :: rest else (k0, f0) :: upsert rest k f

/-- One iteration of the dedup loop (lines 88-92): a new key is appended;
an existing key is overwritten exactly when the incoming candidate is a
hospital and the stored one is not. -/
def dedupInsert (u : List ((List Char × ℤ × ℤ) × Facility)) (f : Facility) :
    List ((List Char × ℤ × ℤ) × Facility) :=
  match u.find? (fun p => decide (p.1 = dedupKey f)) with
  | none => u ++ [(dedupKey f, f)]
  | some p => if f.kind = "hospital" ∧ p.2.kind ≠ "hospital" then upsert u (dedupKey f) f else u

/-- The whole dedup pass (lines 86-93): fold the candidates through the
uniq dict and keep the stored facilities. -/
def dedup (candidates : List Facility) : List Facility :=
  (candidates.foldl dedupInsert []).map Prod.snd

/-- Lines 97-105: each surviving facility gets its computed distance (the
rounded haversine value, an external-arithmetic input here) and the ETA of
the route estimator (none on failure). -/
def setDistEta (distOf : Facility → ℚ) (etaOf : Facility → Option ℤ)
    (f : Facility) : Facility :=
  { f with distance_km := some (distOf f), eta_minutes := etaOf f }

/-- First component of the sort key (line 109): eta_minutes with sentinel
9999. -/
def etaKey (f : Facility) : ℤ := (f.eta_minutes).getD 9999

/-- Second component of the sort key (line 110): distance_km with sentinel
9999. -/
def distKey (f : Facility) : ℚ := (f.distance_km).getD 9999

/-- Lexicographic comparison of the Python sort key tuple
(eta_minutes or 9999, distance_km or 9999). -/
def rankLE (f g : Facility) : Prop :=
  etaKey f < etaKey g ∨ (etaKey f = etaKey g ∧ distKey f ≤ distKey g)

instance : DecidableRel rankLE := fun f g => by unfold rankLE; infer_instance

instance : IsTrans Facility rankLE where
  trans a b c hab hbc := by
    rcases hab with h | ⟨he, hd⟩ <;> rcases hbc with h2 | ⟨he2, hd2⟩
    · exact Or.inl (lt_trans h h2)
    · exact Or.inl (he2 ▸ h)
    · exact Or.inl (he ▸ h2)
    · exact Or.inr ⟨he.trans he2, hd.trans hd2⟩

instance : IsTotal Facility rankLE where
  total a b := by
    rcases lt_trichotomy (etaKey a) (etaKey b) with h | h | h
    · exact Or.inl (Or.inl h)
    · rcases le_total (distKey a) (distKey b) with hd | hd
      · exact Or.inl (Or.inr ⟨h, hd⟩)
      · exact Or.inr (Or.inr ⟨h.symm, hd⟩)
    · exact Or.inr (Or.inl h)

/-- FacilityFinderAgent.run after candidate gathering (lines 86-112):
dedup, compute distance and ETA, stable sort by the key tuple, keep the
first 5. Python list.sort is stable, as is insertionSort over the same
total preorder, so the outputs coincide. -/
def rank (distOf : Facility → ℚ) (etaOf : Facility → Option ℤ)
    (candidates : List Facility) : List Facility :=
  (List.insertionSort rankLE ((dedup candidates).map (setDistEta distOf etaOf))).take 5

/-- Concrete candidate used by the ranking counterexample. -/
def facA : Facility :=
  { name := "Alpha Hospital", address := "1 A St", lat := 0, lon := 0, kind := "hospital" }

/-- Second concrete candidate used by the ranking counterexample. -/
def facB : Facility :=
  { name := "Beta Clinic", address := "2 B St", lat := 1, lon := 1, kind := "clinic" }

/-- Distance oracle of the counterexample: Alpha is far, Beta is close. -/
def cexDist (f : Facility) : ℚ := if f.name = "Alpha Hospital" then 10 else 1

/-- ETA oracle of the counterexample: Alpha is quick, Beta slightly
slower. -/
def cexEta (f : Facility) : Option ℤ := if f.name = "Alpha Hospital" then some 5 else some 6

/-- C3 counterexample: the claim says that within the known-ETA group
facilities are in ascending order of distance_km, but the code sorts that
group by ETA first: a facility with eta 5 and distance 10 precedes one
with eta 6 and distance 1. -/
theorem C3_counterexample :
    (rank cexDist cexEta [facA, facB]).map Facility.eta_minutes = [some 5, some 6] ∧
    (rank cexDist cexEta [facA, facB]).map Facility.distance_km = [some 10, some 1] ∧
    ¬ ((10 : ℚ) ≤ 1) := by
  decide

/-- C3 (amended): the output of rank has length at most 5 and is sorted
ascending by the lexicographic key (eta_minutes or 9999, distance_km or
9999); consequently every facility whose ETA is below the 9999 sentinel
precedes every facility with null ETA, and the null-ETA group is in
ascending order of distance_km — but inside the known-ETA group the order
is by ETA first, distance only breaking ties. -/
theorem C3_rank_sorted (distOf : Facility → ℚ) (etaOf : Facility → Option ℤ)
    (candidates : List Facility) :
    (rank distOf etaOf candidates).length ≤ 5 ∧
    (rank distOf etaOf candidates).Pairwise rankLE ∧
    (rank distOf etaOf candidates).Pairwise
      (fun f g => f.eta_minutes = none → g.eta_minutes ≠ none →
        ∀ v, g.eta_minutes = some v → (9999 : ℤ) ≤ v) ∧
    (rank distOf etaOf candidates).Pairwise
      (fun f g => f.eta_minutes = none → g.eta_minutes = none → distKey f ≤ distKey g) := by
  have hsorted : ((List.insertionSort rankLE
      ((dedup candidates).map (setDistEta distOf etaOf)))).Pairwise rankLE :=
    List.sorted_insertionSort rankLE _
  have hp : (rank distOf etaOf candidates).Pairwise rankLE :=
    List.Pairwise.sublist (List.take_sublist 5 _) hsorted
  refine ⟨?_, hp, ?_, ?_⟩
  · have := List.length_take 5 (List.insertionSort rankLE
      ((dedup candidates).map (setDistEta distOf etaOf)))
    rw [rank, this]
    exact min_le_left _ _
  · refine hp.imp (fun hle => ?_)
    intro hf _ v hg
    rcases hle with h | ⟨he, _⟩
    · rw [etaKey, etaKey, hf, hg] at h
      simp at h
      omega
    · rw [etaKey, etaKey, hf, hg] at he
      simp at he
      omega
  · refine hp.imp (fun hle => ?_)
    intro hf hg
    rcases hle with h | ⟨_, hd⟩
    · exfalso
      rw [etaKey, etaKey, hf, hg] at h
      simp at h
    · exact hd

/-- Membership of the upsert result: every entry was already stored or is
the replacement pair. -/
lemma mem_upsert (k : List Char × ℤ × ℤ) (f : Facility) :
    ∀ u, ∀ p ∈ upsert u k f, p ∈ u ∨ p = (k, f) := by
  intro u
  induction u with
  | nil =>
    intro p hp
    simp only [upsert, List.mem_singleton] at hp
    exact Or.inr hp
  | cons hd rest ih =>
    obtain ⟨k0, f0⟩ := hd
    intro p hp
    rw [upsert] at hp
    split_ifs at hp with hkk
    · subst hkk
      rcases List.mem_cons.mp hp with h | h
      · exact Or.inr h
      · exact Or.inl (List.mem_cons_of_mem _ h)
    · rcases List.mem_cons.mp hp with h | h
      · exact Or.inl (h ▸ List.mem_cons_self _ _)
      · rcases ih p h with h2 | h2
        · exact Or.inl (List.mem_cons_of_mem _ h2)
        · exact Or.inr h2

/-- The upsert keeps the uniq-dict invariant: keys stay pairwise distinct
and every stored pair carries the dedup key of its facility. -/
lemma upsert_inv (k : List Char × ℤ × ℤ) (f : Facility) (hkf : dedupKey f = k) :
    ∀ u, u.Pairwise (fun p q => p.1 ≠ q.1) → (∀ p ∈ u, p.1 = dedupKey p.2) →
    (upsert u k f).Pairwise (fun p q => p.1 ≠ q.1) ∧
    (∀ p ∈ upsert u k f, p.1 = dedupKey p.2) := by
  intro u
  induction u with
  | nil =>
    intro _ _
    refine ⟨List.pairwise_singleton _ _, ?_⟩
    intro p hp
    simp only [upsert, List.mem_singleton] at hp
    rw [hp]
    exact hkf.symm
  | cons hd rest ih =>
    obtain ⟨k0, f0⟩ := hd
    intro h1 h2
    rw [List.pairwise_cons] at h1
    obtain ⟨hh, h1r⟩ := h1
    have h2r : ∀ p ∈ rest, p.1 = dedupKey p.2 :=
      fun p hp => h2 p (List.mem_cons_of_mem _ hp)
    rw [upsert]
    split_ifs with hkk
    · subst hkk
      refine ⟨List.pairwise_cons.mpr ⟨hh, h1r⟩, ?_⟩
      intro p hp
      rcases List.mem_cons.mp hp with h | h
      · rw [h]; exact hkf.symm
      · exact h2r p h
    · obtain ⟨ihp, ihc⟩ := ih h1r h2r
      constructor
      · refine List.pairwise_cons.mpr ⟨?_, ihp⟩
        intro q hq
        rcases mem_upsert k f rest q hq with h | h
        · exact hh q h
        · rw [h]; exact hkk
      · intro p hp
        rcases List.mem_cons.mp hp with h | h
        · rw [h]; exact h2 (k0, f0) (List.mem_cons_self _ _)
        · exact ihc p h

/-- One dedup iteration keeps the uniq-dict invariant. -/
lemma dedupInsert_inv (f : Facility) :
    ∀ u, u.Pairwise (fun p q => p.1 ≠ q.1) → (∀ p ∈ u, p.1 = dedupKey p.2) →
    (dedupInsert u f).Pairwise (fun p q => p.1 ≠ q.1) ∧
    (∀ p ∈ dedupInsert u f, p.1 = dedupKey p.2) := by
  intro u h1 h2
  rw [dedupInsert]
  cases hfind : u.find? (fun p => decide (p.1 = dedupKey f)) with
  | none =>
    constructor
    · rw [List.pairwise_append]
      refine ⟨h1, List.pairwise_singleton _ _, ?_⟩
      intro a ha b hb
      rw [List.mem_singleton] at hb
      subst hb
      have := List.find?_eq_none.mp hfind a ha
      simpa using this
    · intro p hp
      rcases List.mem_append.mp hp with h | h
      · exact h2 p h
      · rw [List.mem_singleton] at h
        rw [h]
  | some p0 =>
    dsimp only
    split_ifs with hc
    · exact upsert_inv (dedupKey f) f rfl u h1 h2
    · exact ⟨h1, h2⟩

/-- The dedup fold keeps the uniq-dict invariant from any start. -/
lemma dedup_foldl_inv (cs : List Facility) :
    ∀ u, u.Pairwise (fun p q => p.1 ≠ q.1) → (∀ p ∈ u, p.1 = dedupKey p.2) →
    (cs.foldl dedupInsert u).Pairwise (fun p q => p.1 ≠ q.1) ∧
    (∀ p ∈ cs.foldl dedupInsert u, p.1 = dedupKey p.2) := by
  induction cs with
  | nil => intro u h1 h2; exact ⟨h1, h2⟩
  | cons c rest ih =>
    intro u h1 h2
    rw [List.foldl_cons]
    obtain ⟨h1s, h2s⟩ := dedupInsert_inv c u h1 h2
    exact ih _ h1s h2s

/-- C8: the dedup output never contains two facilities with equal dedup
keys (any key-sharing candidates collapse to one survivor), and for two
key-sharing candidates the survivor is the hospital when exactly one of
the two is a hospital (the second condition of line 91), and otherwise the
first seen: the conditional below evaluates to the later candidate g
exactly when g is a hospital and the stored f is not, and to f in every
other combination. -/
theorem C8_dedup_collapse (cs : List Facility) (f g : Facility)
    (hk : dedupKey f = dedupKey g) :
    (dedup cs).Pairwise (fun a b => dedupKey a ≠ dedupKey b) ∧
    dedup [f, g] = [if g.kind = "hospital" ∧ f.kind ≠ "hospital" then g else f] := by
  constructor
  · obtain ⟨hpw, hco⟩ := dedup_foldl_inv cs [] List.Pairwise.nil (by simp)
    rw [dedup, List.pairwise_map]
    exact List.Pairwise.imp_of_mem
      (fun ha hb hR => by rw [← hco _ ha, ← hco _ hb]; exact hR) hpw
  · have e1 : dedupInsert [] f = [(dedupKey f, f)] := rfl
    have e2 : ([((dedupKey f : List Char × ℤ × ℤ), f)].find?
        (fun p => decide (p.1 = dedupKey g))) = some (dedupKey f, f) := by
      simp [List.find?, hk]
    rw [dedup, List.foldl_cons, List.foldl_cons, List.foldl_nil, e1, dedupInsert, e2]
    dsimp only
    by_cases hc : g.kind = "hospital" ∧ f.kind ≠ "hospital"
    · rw [if_pos hc, if_pos hc]
      simp only [upsert]
      rw [if_pos hk]
      rfl
    · rw [if_neg hc, if_neg hc]
      rfl

/-- Clinic listed first with a trailing address segment in its name. -/
def facClinicDup : Facility :=
  { name := "Mercy Care, Main Street", address := "Mercy Care, Main Street",
    lat := 1, lon := 2, kind := "clinic" }

/-- Hospital listed second whose name differs only by case, spacing and
the dropped address segment; same rounded coordinates. -/
def facHospDup : Facility :=
  { name := " MERCY CARE ", address := "Mercy Care central",
    lat := 1, lon := 2, kind := "hospital" }

/-- C8 witness: the collapse theorem applied to the clinic/hospital pair
with equal dedup keys; the hospital survives. -/
theorem C8_dedup_collapse_witness :
    (dedup [facClinicDup, facHospDup]).Pairwise (fun a b => dedupKey a ≠ dedupKey b) ∧
    dedup [facClinicDup, facHospDup] =
      [if facHospDup.kind = "hospital" ∧ facClinicDup.kind ≠ "hospital" then facHospDup
       else facClinicDup] :=
  C8_dedup_collapse [facClinicDup, facHospDup] facClinicDup facHospDup (by decide)

/-- C3 witness: the sortedness bundle of the amended ranking theorem at
the concrete two-candidate input. -/
theorem C3_rank_sorted_witness :
    (rank cexDist cexEta [facA, facB]).length ≤ 5 ∧
    (rank cexDist cexEta [facA, facB]).Pairwise rankLE ∧
    (rank cexDist cexEta [facA, facB]).Pairwise
      (fun f g => f.eta_minutes = none → g.eta_minutes ≠ none →
        ∀ v, g.eta_minutes = some v → (9999 : ℤ) ≤ v) ∧
    (rank cexDist cexEta [facA, facB]).Pairwise
      (fun f g => f.eta_minutes = none → g.eta_minutes = none → distKey f ≤ distKey g) :=
  C3_rank_sorted cexDist cexEta [facA, facB]

/-- ETA rendering of the f-string interpolations (lines 135 and 166):
the number, or the word unknown when absent. -/
def etaText : Option ℤ → String
  | some n => toString n
  | none => "unknown"

/-- Flag listing of build_handoff_packet (lines 129-134), in the order of
the source loop. -/
def flagNames (i : IntakeAnswers) : List String :=
  (if i.unconscious then ["unconscious"] else []) ++
  (if i.breathing_difficulty then ["breathing_difficulty"] else []) ++
  (if i.chest_pain then ["chest_pain"] else []) ++
  (if i.stroke_signs then ["stroke_signs"] else []) ++
  (if i.major_bleeding then ["major_bleeding"] else []) ++
  (if i.severe_allergy then ["severe_allergy"] else []) ++
  (if i.injury_trauma then ["injury_trauma"] else []) ++
  (if i.pregnancy then ["pregnancy"] else [])

/-- CoordinatorAgent.build_handoff_packet (lines 123-138), with the quote
characters around the patient name omitted. -/
def build_handoff_packet (intake : IntakeAnswers) (triage : TriageResult)
    (chosen : Facility) (eta : Option ℤ) : String :=
  String.intercalate "\n"
    ["S (Situation): Patient " ++ intake.name ++ " en route. Triage level: " ++
       triage.level ++ ".",
     "B (Background): Symptoms: " ++
       (if intake.symptoms.isEmpty then "N/A"
        else String.intercalate ", " intake.symptoms) ++ ".",
     "A (Assessment): Flags: " ++
       (if (flagNames intake).isEmpty then "None reported"
        else String.intercalate ", " (flagNames intake)) ++ ".",
     "R (Recommendation): Prepare triage on arrival. Estimated arrival: " ++
       etaText eta ++ " min.",
     "Note: This summary is generated for information support only; clinician judgement required.",
     "Destination: " ++ chosen.name ++ " (" ++ chosen.address ++ ")"]

/-- The hard-failure message of the empty-ranking branch (line 159). -/
def noFacilitiesMsg : String := "No facilities found. Try a broader location query."

/-- Route notes of lines 165-168. -/
def routeNotes (chosen : Facility) (eta : Option ℤ) : String :=
  "Nearest recommended: " ++ chosen.name ++ ". Estimated travel time: " ++
  etaText eta ++
  " min. If traffic is heavy or symptoms worsen, consider calling emergency services."

/-- Failure modes of CoordinatorAgent.run, one constructor per
propagation site: the re-raised geocoder exception of line 150, the
RuntimeError of line 159 with its message, and the exception that
save_memory logs and re-raises (memory.py line 36), which run does not
catch around lines 194-197. load_memory never raises (memory.py lines
15-23), so the memory step can only fail in the save. -/
inductive RunError where
  | geocode (msg : String)
  | noFacilities (msg : String)
  | memorySave (msg : String)
deriving DecidableEq

/-- CoordinatorAgent.run (lines 140-210): geocode (propagating its
failure), triage, rank, hard failure on an empty ranked list, then route
notes, handoff packet and booking seeding, then the memory update of
lines 193-197, whose save failure propagates and aborts the run after
ranking and seeding succeeded; only then is the Recommendation built and
returned. The booking_status of the Recommendation equals the seeded
status, as the branch variables of lines 185 and 191 mirror it. The
memSave parameter is the outcome of save_memory at line 197. -/
def coordinator_run (intake : IntakeAnswers)
    (geocodeResult : Except String (ℚ × ℚ × String)) (candidates : List Facility)
    (distOf : Facility → ℚ) (etaOf : Facility → Option ℤ)
    (explanation now : String) (b : BookingState)
    (memSave : Except String Unit) : Except RunError Recommendation :=
  match geocodeResult with
  | .error e => .error (RunError.geocode e)
  | .ok _ =>
    let triage := classify intake explanation
    match rank distOf etaOf candidates with
    | [] => .error (RunError.noFacilities noFacilitiesMsg)
    | chosen :: rest =>
      let booking := seed b chosen.name triage.level intake.name now
      match memSave with
      | .error m => .error (RunError.memorySave m)
      | .ok _ =>
        .ok { triage := triage,
              top_choices := chosen :: rest,
              route_notes := routeNotes chosen chosen.eta_minutes,
              handoff_packet := build_handoff_packet intake triage chosen chosen.eta_minutes,
              booking_status := booking.status,
              booking := some booking }

/-- C9: with geocoding successful, the coordinator fails with the
NoFacilitiesFound error (the RuntimeError of line 159) exactly when the
ranked list is empty, and an empty ranked list never yields a
Recommendation; a non-empty ranked list never triggers this error, though
the run can still abort later with a memorySave error (memory.py line 36
re-raises and lines 194-197 of agents.py do not catch), and succeeds
whenever the save does. -/
theorem C9_no_facilities_abort (intake : IntakeAnswers) (g : ℚ × ℚ × String)
    (candidates : List Facility) (distOf : Facility → ℚ)
    (etaOf : Facility → Option ℤ) (explanation now : String) (b : BookingState)
    (memSave : Except String Unit) :
    (coordinator_run intake (.ok g) candidates distOf etaOf explanation now b memSave =
        .error (RunError.noFacilities noFacilitiesMsg) ↔
      rank distOf etaOf candidates = []) ∧
    (rank distOf etaOf candidates = [] →
      ∀ r, coordinator_run intake (.ok g) candidates distOf etaOf explanation now b memSave
        ≠ .ok r) ∧
    (rank distOf etaOf candidates ≠ [] → memSave = .ok () →
      (coordinator_run intake (.ok g) candidates distOf etaOf explanation now b
        memSave).isOk = true) := by
  cases hr : rank distOf etaOf candidates with
  | nil =>
    refine ⟨by simp [coordinator_run, hr], fun _ r => by simp [coordinator_run, hr],
      fun hne _ => absurd rfl hne⟩
  | cons chosen rest =>
    cases memSave with
    | error m =>
      refine ⟨by simp [coordinator_run, hr], fun hc => absurd hc (by simp),
        fun _ hok => by simp at hok⟩
    | ok u =>
      cases u
      refine ⟨by simp [coordinator_run, hr], fun hc => absurd hc (by simp),
        fun _ _ => by simp [coordinator_run, hr, Except.isOk, Except.toBool]⟩

/-- C9 witness: an empty candidate pool aborts with the NoFacilitiesFound
error, a non-empty one with a successful memory save yields a
Recommendation. -/
theorem C9_no_facilities_abort_witness :
    (coordinator_run chestPainIntake (.ok (0, 0, "X")) [] cexDist cexEta "" "t6" {}
       (.ok ()) = .error (RunError.noFacilities noFacilitiesMsg)) ∧
    (coordinator_run chestPainIntake (.ok (0, 0, "X")) [facA, facB] cexDist cexEta
       "" "t6" {} (.ok ())).isOk = true :=
  ⟨(C9_no_facilities_abort chestPainIntake (0, 0, "X") [] cexDist cexEta
      "" "t6" {} (.ok ())).1.mpr (by decide),
   (C9_no_facilities_abort chestPainIntake (0, 0, "X") [facA, facB] cexDist cexEta
      "" "t6" {} (.ok ())).2.2 (by decide) rfl⟩
